import Mathlib

/-!
Verification of the error-classification facade of `effect-cloudflare`
(`src/internal/env.ts`, R2 bucket module).

The development shallowly embeds:
* the operation enumeration `R2Operation`;
* the raw provider failure (an opaque JS value, modelled by the four
  projections the classifier reads: optional numeric `code`, optional
  numeric `status`, optional string `message` property, and the
  `String(error)` fallback representation);
* the closed error taxonomy `R2BucketError` (17 tagged variants);
* the two versions of the classification cascade `mapError` present in
  the repository (`mapErrorV1`, lines 1276-1518; `mapErrorV2`,
  lines 2720-2857 of the concatenated source);
* the conditional-result adapters for `head` and `get`;
* the environment-binding resolver `makeEnv` with `isKVNamespace`.

JS `switch` statements on numbers compare with `===` and every case
returns, so they are embedded as if-chains; `message.includes(sub)` is
embedded as the substring test `strContains`.
-/

/-- The closed enumeration of R2 operations (`R2Operation` in the source). -/
inductive R2Operation where
  | head
  | get
  | put
  | delete
  | list
  | createMultipartUpload
  | resumeMultipartUpload
  | uploadPart
  | completeMultipartUpload
  | abortMultipartUpload
deriving DecidableEq

/-- A raw provider failure, as seen by `mapError`.  A JS value of any shape
(including `null`, `undefined`, or a non-object) is determined, for the
purposes of the classifier, by the four projections read at the top of
`mapError`: `(error as any)?.code` and `(error as any)?.status` (absent or
non-numeric properties behave like `none` in the numeric `switch`), the
`(error as Error)?.message` string property, and the `String(error)`
rendering used when the message property is absent (e.g. `"null"` for a
`null` failure). -/
structure RawFailure where
  code : Option Int
  status : Option Int
  message : Option String
  stringRep : String
deriving DecidableEq

/-- `const message = errorObj?.message ?? String(error)`. -/
def failureMessage (e : RawFailure) : String :=
  e.message.getD e.stringRep

/-- The closed error taxonomy: one constructor per `R2...Error` class of the
source, with the fields each constructor is given. -/
inductive R2BucketError where
  | rateLimit (key : String) (op : R2Operation) (retryAfter : Option Int)
  | concurrency (key : Option String) (op : R2Operation) (reason : String)
  | objectTooLarge (key : String) (op : R2Operation)
      (sizeBytes : Option Int) (limit : Option Int)
  | objectTooSmall (key : String) (op : R2Operation)
      (sizeBytes : Option Int) (partNumber : Option Int)
  | invalidKey (key : String) (op : R2Operation) (reason : String)
  | invalidRange (key : String) (op : R2Operation) (reason : String)
  | metadataError (key : String) (op : R2Operation) (reason : String)
      (sizeBytes : Option Int)
  | preconditionFailed (key : String) (op : R2Operation) (condition : String)
  | multipart (key : Option String) (op : R2Operation) (reason : String)
      (uploadId : Option String) (partNumber : Option Int)
  | bucketNotFound (op : R2Operation) (bucketName : Option String)
  | notEnabled (op : R2Operation)
  | authorization (op : R2Operation) (reason : String)
  | badDigest (key : String) (op : R2Operation) (reason : String)
      (algorithm : Option String)
  | invalidMaxKeys (op : R2Operation) (limit : Option Int)
  | invalidArgument (op : R2Operation) (reason : String) (key : Option String)
  | internalError (op : R2Operation) (reason : String) (key : Option String)
  | network (key : Option String) (op : R2Operation) (reason : String)
      (cause : Option RawFailure)
deriving DecidableEq

/-- The `_tag` of each variant, exactly as in the source classes. -/
def R2BucketError.tag : R2BucketError → String
  | .rateLimit .. => "R2RateLimitError"
  | .concurrency .. => "R2ConcurrencyError"
  | .objectTooLarge .. => "R2ObjectTooLargeError"
  | .objectTooSmall .. => "R2ObjectTooSmallError"
  | .invalidKey .. => "R2InvalidKeyError"
  | .invalidRange .. => "R2InvalidRangeError"
  | .metadataError .. => "R2MetadataError"
  | .preconditionFailed .. => "R2PreconditionFailedError"
  | .multipart .. => "R2MultipartError"
  | .bucketNotFound .. => "R2BucketNotFoundError"
  | .notEnabled .. => "R2NotEnabledError"
  | .authorization .. => "R2AuthorizationError"
  | .badDigest .. => "R2BadDigestError"
  | .invalidMaxKeys .. => "R2InvalidMaxKeysError"
  | .invalidArgument .. => "R2InvalidArgumentError"
  | .internalError .. => "R2InternalError"
  | .network .. => "R2NetworkError"

/-- The 17 tags of the closed taxonomy (the `R2BucketError` union type). -/
def taxonomyTags : List String :=
  ["R2RateLimitError", "R2ConcurrencyError", "R2ObjectTooLargeError",
   "R2ObjectTooSmallError", "R2InvalidKeyError", "R2InvalidRangeError",
   "R2MetadataError", "R2PreconditionFailedError", "R2MultipartError",
   "R2BucketNotFoundError", "R2NotEnabledError", "R2AuthorizationError",
   "R2BadDigestError", "R2InvalidMaxKeysError", "R2InvalidArgumentError",
   "R2InternalError", "R2NetworkError"]

/-- `sub` occurs as a contiguous slice of `l`. -/
def listHasSlice (sub : List Char) : List Char → Bool
  | [] => sub.isEmpty
  | c :: rest => sub.isPrefixOf (c :: rest) || listHasSlice sub rest

/-- JS `s.includes(sub)`: substring occurrence, case-sensitive. -/
def strContains (s sub : String) : Bool :=
  listHasSlice sub.toList s.toList

/-- `extractReason` of the source: returns the message unchanged. -/
def extractReason (m : String) : String := m

/-- Priority 1 of the first classifier (source lines 1287-1384): the
`switch (code)` over the R2 error codes.  Every case `return`s, so the
switch is `some variant` on a matching case and `none` (fall through to
the status switch) otherwise; a missing or non-numeric `code` property
matches no case. -/
def v1CodeSwitch (code : Option Int) (op : R2Operation) (key : Option String)
    (message : String) : Option R2BucketError :=
  match code with
  | none => none
  | some c =>
    if c = 10001 then some (.internalError op (extractReason message) key)
    else if c = 100100 then some (.objectTooLarge (key.getD "") op none none)
    else if c = 10011 then some (.objectTooSmall (key.getD "") op none none)
    else if c = 10012 then
      some (.metadataError (key.getD "") op "Metadata exceeds size limit" none)
    else if c = 10020 then
      some (.invalidKey (key.getD "") op (extractReason message))
    else if c = 10022 then some (.invalidMaxKeys op none)
    else if c = 10024 then
      some (.multipart key op "The specified multipart upload does not exist"
        none none)
    else if c = 10025 then
      some (.multipart key op
        "One or more of the specified parts could not be found" none none)
    else if c = 10029 then
      some (.invalidArgument op (extractReason message) key)
    else if c = 10031 then
      some (.preconditionFailed (key.getD "") op (extractReason message))
    else if c = 10037 then
      some (.badDigest (key.getD "") op (extractReason message) none)
    else if c = 10039 then
      some (.invalidRange (key.getD "") op (extractReason message))
    else if c = 10048 then
      some (.multipart key op "There was a problem with the multipart upload"
        none none)
    else if c = 10006 then some (.bucketNotFound op none)
    else if c = 10042 then some (.notEnabled op)
    else none

/-- The `case 400:` block of the first classifier (source lines 1422-1484):
message inspection, in source order, ending in the generic
`R2InvalidArgumentError`. -/
def v1Handle400 (op : R2Operation) (key : Option String) (message : String) :
    R2BucketError :=
  if strContains message "key" &&
      (strContains message "empty" || strContains message "invalid") then
    .invalidKey (key.getD "") op (extractReason message)
  else if strContains message "metadata" || strContains message "Metadata" then
    .metadataError (key.getD "") op (extractReason message) none
  else if strContains message "multipart" || strContains message "part" ||
      strContains message "upload" || strContains message "NoSuchUpload" ||
      strContains message "InvalidPart" then
    .multipart key op (extractReason message) none none
  else if strContains message "digest" || strContains message "checksum" then
    .badDigest (key.getD "") op (extractReason message) none
  else if strContains message "too large" || strContains message "exceeds" then
    .objectTooLarge (key.getD "") op none none
  else if strContains message "too small" then
    .objectTooSmall (key.getD "") op none none
  else
    .invalidArgument op (extractReason message) key

/-- Priority 2 of the first classifier (source lines 1387-1485): the
`switch (status)`.  Every listed case `return`s (the 400 case via
`v1Handle400`), so an unlisted or missing status falls through
(`none`). -/
def v1StatusSwitch (status : Option Int) (op : R2Operation)
    (key : Option String) (message : String) : Option R2BucketError :=
  match status with
  | none => none
  | some s =>
    if s = 429 then some (.rateLimit (key.getD "") op none)
    else if s = 412 then
      some (.preconditionFailed (key.getD "") op (extractReason message))
    else if s = 416 then
      some (.invalidRange (key.getD "") op (extractReason message))
    else if s = 401 then some (.authorization op (extractReason message))
    else if s = 403 then some (.authorization op (extractReason message))
    else if s = 500 then
      some (.internalError op (extractReason message) key)
    else if s = 400 then some (v1Handle400 op key message)
    else none

/-- Priority 3 and the fallback of the first classifier (source lines
1487-1517): message-based detection for non-standard errors, then
`R2NetworkError` carrying the original failure as `cause`. -/
def v1Tail (e : RawFailure) (op : R2Operation) (key : Option String)
    (message : String) : R2BucketError :=
  if strContains message "NoSuchBucket" then
    .bucketNotFound op none
  else if strContains message "Please enable" ||
      strContains message "not entitled" then
    .notEnabled op
  else if strContains message "TooMuchConcurrency" ||
      strContains message "concurrency" then
    .concurrency key op (extractReason message)
  else
    .network key op message (some e)

/-- First version of the classifier (source lines 1276-1518): the code
switch, falling through to the status switch, falling through to the
message checks and the network fallback. -/
def mapErrorV1 (e : RawFailure) (op : R2Operation) (key : Option String) :
    R2BucketError :=
  let message := failureMessage e
  (v1CodeSwitch e.code op key message).getD
    ((v1StatusSwitch e.status op key message).getD (v1Tail e op key message))

/-- The `case 400:` block of the second classifier (source lines 2800-2834):
key check, multipart check, then `R2NetworkError` (not
`R2InvalidArgumentError`). -/
def v2Handle400 (e : RawFailure) (op : R2Operation) (key : Option String)
    (message : String) : R2BucketError :=
  if strContains message "key" &&
      (strContains message "empty" || strContains message "invalid") then
    .invalidKey (key.getD "") op (extractReason message)
  else if strContains message "multipart" || strContains message "part" ||
      strContains message "upload" || strContains message "NoSuchUpload" ||
      strContains message "InvalidPart" then
    .multipart key op (extractReason message) none none
  else
    .network key op (extractReason message) (some e)

/-- The `switch (status)` of the second classifier (source lines 2744-2834),
without its `default:` branch: listed statuses produce `some variant`
(413 disambiguating metadata, 400 via `v2Handle400`), anything else is
`none` and goes to the default branch. -/
def v2StatusSwitch (e : RawFailure) (op : R2Operation) (key : Option String)
    (message : String) : Option R2BucketError :=
  match e.status with
  | none => none
  | some s =>
    if s = 429 then some (.rateLimit (key.getD "") op none)
    else if s = 412 then
      some (.preconditionFailed (key.getD "") op (extractReason message))
    else if s = 416 then
      some (.invalidKey (key.getD "") op "Invalid range request")
    else if s = 414 then
      some (.invalidKey (key.getD "") op "Key exceeds 1024 byte limit")
    else if s = 413 then
      some (if strContains message "metadata" ||
          strContains message "Metadata" then
        .metadataError (key.getD "") op "Metadata exceeds 8192 byte limit" none
      else
        .objectTooLarge (key.getD "") op none none)
    else if s = 401 then some (.authorization op (extractReason message))
    else if s = 403 then some (.authorization op (extractReason message))
    else if s = 400 then some (v2Handle400 e op key message)
    else none

/-- The `default:` branch of the second classifier's status switch (source
lines 2836-2855): a concurrency check, then `R2NetworkError`. -/
def v2Default (e : RawFailure) (op : R2Operation) (key : Option String)
    (message : String) : R2BucketError :=
  if strContains message "TooMuchConcurrency" ||
      strContains message "concurrency" then
    .concurrency key op (extractReason message)
  else
    .network key op message (some e)

/-- Second version of the classifier (source lines 2720-2857): error-code /
message checks for bucket-not-found and not-enabled first, then the
status switch with its default branch. -/
def mapErrorV2 (e : RawFailure) (op : R2Operation) (key : Option String) :
    R2BucketError :=
  let message := failureMessage e
  if e.code = some 10006 ∨ strContains message "NoSuchBucket" = true then
    .bucketNotFound op none
  else if e.code = some 10042 ∨ strContains message "Please enable" = true then
    .notEnabled op
  else
    (v2StatusSwitch e op key message).getD (v2Default e op key message)

/-- The outcome of one provider call, as observed by the adapters built with
`Effect.tryPromise`: the promise resolves to the `null` sentinel, resolves
to a value, or rejects with a raw failure. -/
inductive ProviderResult (α : Type) where
  | resolvesNull
  | resolves (value : α)
  | raises (failure : RawFailure)
deriving DecidableEq

/-- The conditional-result adapter of `make.head` (source lines 1655-1664):
`result === null ? Option.none() : Option.some(result)` on success,
`mapError(error, "head", key)` on rejection.  `Except` is the error
channel of the resulting `Effect`. -/
def adaptHead {α : Type} (outcome : ProviderResult α) (key : String) :
    Except R2BucketError (Option α) :=
  match outcome with
  | .resolvesNull => .ok none
  | .resolves v => .ok (some v)
  | .raises e => .error (mapErrorV1 e R2Operation.head (some key))

/-- The conditional-result adapter of `make.get` without options (source
lines 1666-1698); the options branch wraps the provider result
identically. -/
def adaptGet {α : Type} (outcome : ProviderResult α) (key : String) :
    Except R2BucketError (Option α) :=
  match outcome with
  | .resolvesNull => .ok none
  | .resolves v => .ok (some v)
  | .raises e => .error (mapErrorV1 e R2Operation.get (some key))

/-- A raw environment binding, as far as `isKVNamespace` and `makeEnv`
inspect it: `undefined`, `null`, a non-object value, or an object with a
set of property names. -/
inductive Binding where
  | undef
  | null
  | prim (s : String)
  | obj (props : List String)
deriving DecidableEq

/-- `isKVNamespace` (source lines 19-29): a non-undefined, non-null object
value with `get`, `put`, `list` and `delete` properties. -/
def isKVNamespace : Binding → Bool
  | .obj props =>
      props.contains "get" && props.contains "put" &&
      props.contains "list" && props.contains "delete"
  | _ => false

/-- A value of the environment object produced by `makeEnv`:
`passthrough b` is the input binding `b` assigned unchanged,
`kvWrapped b` is `makeKVNamespace b` (a fresh wrapper around `b`), and
`rawEnv env` is the original raw environment stored under `"~raw"`. -/
inductive EffectBinding where
  | passthrough (b : Binding)
  | kvWrapped (b : Binding)
  | rawEnv (env : List (String × Binding))
deriving DecidableEq

/-- `makeEnv` (source lines 35-51), as the lookup function of the final
object: `effectEnv` starts as `{"~raw": env}` and the `for...in` loop then
assigns every binding of `env` (overwriting `"~raw"` if a binding has that
name), wrapping exactly the bindings `isKVNamespace` accepts.  The raw
environment is a JS object, so its keys are distinct and `List.lookup`
returns the unique binding of a name. -/
def makeEnv (env : List (String × Binding)) (name : String) :
    Option EffectBinding :=
  match env.lookup name with
  | some b =>
      some (if isKVNamespace b then .kvWrapped b else .passthrough b)
  | none => if name = "~raw" then some (.rawEnv env) else none

/-- The code → variant-tag lookup table of `v1CodeSwitch` (priority 1). -/
def codeVariantTag : Int → Option String := fun c =>
  if c = 10001 then some "R2InternalError"
  else if c = 100100 then some "R2ObjectTooLargeError"
  else if c = 10011 then some "R2ObjectTooSmallError"
  else if c = 10012 then some "R2MetadataError"
  else if c = 10020 then some "R2InvalidKeyError"
  else if c = 10022 then some "R2InvalidMaxKeysError"
  else if c = 10024 then some "R2MultipartError"
  else if c = 10025 then some "R2MultipartError"
  else if c = 10029 then some "R2InvalidArgumentError"
  else if c = 10031 then some "R2PreconditionFailedError"
  else if c = 10037 then some "R2BadDigestError"
  else if c = 10039 then some "R2InvalidRangeError"
  else if c = 10048 then some "R2MultipartError"
  else if c = 10006 then some "R2BucketNotFoundError"
  else if c = 10042 then some "R2NotEnabledError"
  else none

/-- The HTTP statuses handled by priority 2 of the first classifier. -/
def v1Statuses : List Int := [429, 412, 416, 401, 403, 500, 400]

/-- ASCII lowercasing of one character. -/
def lowerChar (c : Char) : Char :=
  if 'A' ≤ c ∧ c ≤ 'Z' then Char.ofNat (c.toNat + 32) else c

/-- ASCII lowercasing of a string (the spec's "lowercased failure
message"). -/
def lowercase (s : String) : List Char :=
  s.toList.map lowerChar

/-- The tags of the second version's `R2BucketError` union (source lines
2542-2553): 11 variants. -/
def v2UnionTags : List String :=
  ["R2RateLimitError", "R2ConcurrencyError", "R2ObjectTooLargeError",
   "R2InvalidKeyError", "R2MetadataError", "R2PreconditionFailedError",
   "R2MultipartError", "R2BucketNotFoundError", "R2NotEnabledError",
   "R2AuthorizationError", "R2NetworkError"]

lemma tag_mem_taxonomyTags (v : R2BucketError) : v.tag ∈ taxonomyTags := by
  cases v <;> simp [R2BucketError.tag, taxonomyTags]

lemma v1CodeSwitch_eq_none (code : Option Int) (op : R2Operation)
    (key : Option String) (m : String)
    (h : ∀ c, code = some c → codeVariantTag c = none) :
    v1CodeSwitch code op key m = none := by
  cases code with
  | none => rfl
  | some c =>
    have hc := h c rfl
    by_cases h1 : c = 10001
    · subst h1; exact absurd hc (by decide)
    by_cases h2 : c = 100100
    · subst h2; exact absurd hc (by decide)
    by_cases h3 : c = 10011
    · subst h3; exact absurd hc (by decide)
    by_cases h4 : c = 10012
    · subst h4; exact absurd hc (by decide)
    by_cases h5 : c = 10020
    · subst h5; exact absurd hc (by decide)
    by_cases h6 : c = 10022
    · subst h6; exact absurd hc (by decide)
    by_cases h7 : c = 10024
    · subst h7; exact absurd hc (by decide)
    by_cases h8 : c = 10025
    · subst h8; exact absurd hc (by decide)
    by_cases h9 : c = 10029
    · subst h9; exact absurd hc (by decide)
    by_cases h10 : c = 10031
    · subst h10; exact absurd hc (by decide)
    by_cases h11 : c = 10037
    · subst h11; exact absurd hc (by decide)
    by_cases h12 : c = 10039
    · subst h12; exact absurd hc (by decide)
    by_cases h13 : c = 10048
    · subst h13; exact absurd hc (by decide)
    by_cases h14 : c = 10006
    · subst h14; exact absurd hc (by decide)
    by_cases h15 : c = 10042
    · subst h15; exact absurd hc (by decide)
    simp only [v1CodeSwitch]
    rw [if_neg h1, if_neg h2, if_neg h3, if_neg h4, if_neg h5, if_neg h6,
      if_neg h7, if_neg h8, if_neg h9, if_neg h10, if_neg h11, if_neg h12,
      if_neg h13, if_neg h14, if_neg h15]

lemma v1StatusSwitch_eq_none (status : Option Int) (op : R2Operation)
    (key : Option String) (m : String)
    (h : ∀ s, status = some s → s ∉ v1Statuses) :
    v1StatusSwitch status op key m = none := by
  cases status with
  | none => rfl
  | some s =>
    have hs := h s rfl
    by_cases h1 : s = 429
    · subst h1; exact absurd hs (by decide)
    by_cases h2 : s = 412
    · subst h2; exact absurd hs (by decide)
    by_cases h3 : s = 416
    · subst h3; exact absurd hs (by decide)
    by_cases h4 : s = 401
    · subst h4; exact absurd hs (by decide)
    by_cases h5 : s = 403
    · subst h5; exact absurd hs (by decide)
    by_cases h6 : s = 500
    · subst h6; exact absurd hs (by decide)
    by_cases h7 : s = 400
    · subst h7; exact absurd hs (by decide)
    simp only [v1StatusSwitch]
    rw [if_neg h1, if_neg h2, if_neg h3, if_neg h4, if_neg h5, if_neg h6,
      if_neg h7]

/-- C1: when the raw failure carries a provider error code recognized by the
code lookup table, the first classifier returns the variant the table
fixes for that code, regardless of the failure's HTTP status or message
text. -/
theorem mapErrorV1_code_lookup (e : RawFailure) (op : R2Operation)
    (key : Option String) (c : Int) (t : String)
    (hc : e.code = some c) (ht : codeVariantTag c = some t) :
    (mapErrorV1 e op key).tag = t := by
  by_cases h1 : c = 10001
  · subst h1; simp [codeVariantTag] at ht; subst ht
    simp [mapErrorV1, v1CodeSwitch, hc, extractReason, R2BucketError.tag]
  by_cases h2 : c = 100100
  · subst h2; simp [codeVariantTag] at ht; subst ht
    simp [mapErrorV1, v1CodeSwitch, hc, extractReason, R2BucketError.tag]
  by_cases h3 : c = 10011
  · subst h3; simp [codeVariantTag] at ht; subst ht
    simp [mapErrorV1, v1CodeSwitch, hc, extractReason, R2BucketError.tag]
  by_cases h4 : c = 10012
  · subst h4; simp [codeVariantTag] at ht; subst ht
    simp [mapErrorV1, v1CodeSwitch, hc, extractReason, R2BucketError.tag]
  by_cases h5 : c = 10020
  · subst h5; simp [codeVariantTag] at ht; subst ht
    simp [mapErrorV1, v1CodeSwitch, hc, extractReason, R2BucketError.tag]
  by_cases h6 : c = 10022
  · subst h6; simp [codeVariantTag] at ht; subst ht
    simp [mapErrorV1, v1CodeSwitch, hc, extractReason, R2BucketError.tag]
  by_cases h7 : c = 10024
  · subst h7; simp [codeVariantTag] at ht; subst ht
    simp [mapErrorV1, v1CodeSwitch, hc, extractReason, R2BucketError.tag]
  by_cases h8 : c = 10025
  · subst h8; simp [codeVariantTag] at ht; subst ht
    simp [mapErrorV1, v1CodeSwitch, hc, extractReason, R2BucketError.tag]
  by_cases h9 : c = 10029
  · subst h9; simp [codeVariantTag] at ht; subst ht
    simp [mapErrorV1, v1CodeSwitch, hc, extractReason, R2BucketError.tag]
  by_cases h10 : c = 10031
  · subst h10; simp [codeVariantTag] at ht; subst ht
    simp [mapErrorV1, v1CodeSwitch, hc, extractReason, R2BucketError.tag]
  by_cases h11 : c = 10037
  · subst h11; simp [codeVariantTag] at ht; subst ht
    simp [mapErrorV1, v1CodeSwitch, hc, extractReason, R2BucketError.tag]
  by_cases h12 : c = 10039
  · subst h12; simp [codeVariantTag] at ht; subst ht
    simp [mapErrorV1, v1CodeSwitch, hc, extractReason, R2BucketError.tag]
  by_cases h13 : c = 10048
  · subst h13; simp [codeVariantTag] at ht; subst ht
    simp [mapErrorV1, v1CodeSwitch, hc, extractReason, R2BucketError.tag]
  by_cases h14 : c = 10006
  · subst h14; simp [codeVariantTag] at ht; subst ht
    simp [mapErrorV1, v1CodeSwitch, hc, extractReason, R2BucketError.tag]
  by_cases h15 : c = 10042
  · subst h15; simp [codeVariantTag] at ht; subst ht
    simp [mapErrorV1, v1CodeSwitch, hc, extractReason, R2BucketError.tag]
  simp [codeVariantTag, h1, h2, h3, h4, h5, h6, h7, h8, h9, h10, h11, h12,
    h13, h14, h15] at ht

theorem mapErrorV1_code_lookup_witness :
    (mapErrorV1 ⟨some 10020, some 500, some "Invalid object name", "s"⟩
      R2Operation.put (some "k")).tag = "R2InvalidKeyError" :=
  mapErrorV1_code_lookup _ _ _ 10020 _ rfl (by decide)

/-- C2: both classifiers are total functions into the closed taxonomy: for
every raw failure (including the projections of `null`, `undefined` or a
non-object failure value), every operation and every optional key, each
classifier returns exactly one variant whose tag belongs to the 17-tag
closed union; there is no other outcome and no exception. -/
theorem mapError_total_closed (e : RawFailure) (op : R2Operation)
    (key : Option String) :
    (mapErrorV1 e op key).tag ∈ taxonomyTags ∧
    (mapErrorV2 e op key).tag ∈ taxonomyTags :=
  ⟨tag_mem_taxonomyTags _, tag_mem_taxonomyTags _⟩

/-- C3: with HTTP status 400 and no recognized provider error code, a message
containing "key" together with "empty" or "invalid" classifies as
InvalidKey even when it also contains "multipart", because the key
keyword test comes first in the 400 block. -/
theorem mapErrorV1_400_key_priority (e : RawFailure) (op : R2Operation)
    (key : Option String)
    (hcode : ∀ c, e.code = some c → codeVariantTag c = none)
    (hst : e.status = some 400)
    (hkey : strContains (failureMessage e) "key" = true)
    (hei : strContains (failureMessage e) "empty" = true ∨
           strContains (failureMessage e) "invalid" = true)
    (hmp : strContains (failureMessage e) "multipart" = true) :
    (mapErrorV1 e op key).tag = "R2InvalidKeyError" := by
  have hA := v1CodeSwitch_eq_none e.code op key (failureMessage e) hcode
  rcases hei with h | h <;>
    simp [mapErrorV1, hA, hst, v1StatusSwitch, v1Handle400, hkey, h,
      extractReason, R2BucketError.tag]

theorem mapErrorV1_400_key_priority_witness :
    (mapErrorV1 ⟨none, some 400, some "key empty multipart", "s"⟩
      R2Operation.uploadPart (some "k")).tag = "R2InvalidKeyError" :=
  mapErrorV1_400_key_priority _ _ _ (by simp) rfl (by decide)
    (Or.inl (by decide)) (by decide)

/-- C4 counterexample: a failure with no code, no status and the message
"key is empty" classifies as NetworkError, not InvalidKey: the final
catch-all does not run the 400 keyword cascade. -/
theorem mapErrorV1_codeless_counterexample :
    (mapErrorV1 ⟨none, none, some "key is empty", "s"⟩ R2Operation.put
      (some "k")).tag = "R2NetworkError" ∧
    (mapErrorV1 ⟨none, none, some "key is empty", "s"⟩ R2Operation.put
      (some "k")).tag ≠ "R2InvalidKeyError" := by decide

/-- C4 (amended): with no recognized provider error code and no recognized
HTTP status, the first classifier's final catch-all checks only three
keyword groups — "NoSuchBucket" → BucketNotFound, "Please enable" /
"not entitled" → NotEnabled, "TooMuchConcurrency" / "concurrency" →
TooMuchConcurrency — and every other message (including key, metadata,
multipart, digest and size keywords) falls through to NetworkError. -/
theorem mapErrorV1_final_catchall (e : RawFailure) (op : R2Operation)
    (key : Option String)
    (hcode : ∀ c, e.code = some c → codeVariantTag c = none)
    (hst : ∀ s, e.status = some s → s ∉ v1Statuses) :
    mapErrorV1 e op key =
      if strContains (failureMessage e) "NoSuchBucket" then
        .bucketNotFound op none
      else if strContains (failureMessage e) "Please enable" ||
          strContains (failureMessage e) "not entitled" then
        .notEnabled op
      else if strContains (failureMessage e) "TooMuchConcurrency" ||
          strContains (failureMessage e) "concurrency" then
        .concurrency key op (failureMessage e)
      else
        .network key op (failureMessage e) (some e) := by
  have hA := v1CodeSwitch_eq_none e.code op key (failureMessage e) hcode
  have hB := v1StatusSwitch_eq_none e.status op key (failureMessage e) hst
  simp [mapErrorV1, hA, hB, v1Tail, extractReason]

theorem mapErrorV1_final_catchall_witness :
    mapErrorV1 ⟨none, none, some "key is empty", "s"⟩ R2Operation.put
      (some "k") =
    R2BucketError.network (some "k") R2Operation.put "key is empty"
      (some ⟨none, none, some "key is empty", "s"⟩) := by
  have h := mapErrorV1_final_catchall ⟨none, none, some "key is empty", "s"⟩
    R2Operation.put (some "k") (by simp) (by simp)
  exact h.trans (by decide)

/-- C5 counterexample: two status-400 failures whose messages differ only in
letter case ("Key is Empty" vs "key is empty") classify to different
variants, so classification does not factor through the lowercased
message. -/
theorem mapErrorV1_case_sensitive_counterexample :
    lowercase "Key is Empty" = lowercase "key is empty" ∧
    (mapErrorV1 ⟨none, some 400, some "Key is Empty", "s"⟩ R2Operation.put
      (some "k")).tag = "R2InvalidArgumentError" ∧
    (mapErrorV1 ⟨none, some 400, some "key is empty", "s"⟩ R2Operation.put
      (some "k")).tag = "R2InvalidKeyError" ∧
    (mapErrorV1 ⟨none, some 400, some "Key is Empty", "s"⟩ R2Operation.put
      (some "k")).tag ≠
      (mapErrorV1 ⟨none, some 400, some "key is empty", "s"⟩ R2Operation.put
        (some "k")).tag := by decide

/-- C5 (amended): with HTTP status 400 and no recognized provider error
code, the result is the 400 message handler applied to the raw (not
lowercased) message, and its variant is fixed by the case-sensitive
keyword cascade in source order (key → metadata/Metadata → multipart →
digest/checksum → too large/exceeds → too small → InvalidArgument). -/
theorem mapErrorV1_400_message_cascade (e : RawFailure) (op : R2Operation)
    (key : Option String)
    (hcode : ∀ c, e.code = some c → codeVariantTag c = none)
    (hst : e.status = some 400) :
    mapErrorV1 e op key = v1Handle400 op key (failureMessage e) ∧
    (v1Handle400 op key (failureMessage e)).tag =
      (if strContains (failureMessage e) "key" &&
          (strContains (failureMessage e) "empty" ||
           strContains (failureMessage e) "invalid") then "R2InvalidKeyError"
       else if strContains (failureMessage e) "metadata" ||
           strContains (failureMessage e) "Metadata" then "R2MetadataError"
       else if strContains (failureMessage e) "multipart" ||
           strContains (failureMessage e) "part" ||
           strContains (failureMessage e) "upload" ||
           strContains (failureMessage e) "NoSuchUpload" ||
           strContains (failureMessage e) "InvalidPart" then "R2MultipartError"
       else if strContains (failureMessage e) "digest" ||
           strContains (failureMessage e) "checksum" then "R2BadDigestError"
       else if strContains (failureMessage e) "too large" ||
           strContains (failureMessage e) "exceeds" then "R2ObjectTooLargeError"
       else if strContains (failureMessage e) "too small" then
         "R2ObjectTooSmallError"
       else "R2InvalidArgumentError") := by
  constructor
  · have hA := v1CodeSwitch_eq_none e.code op key (failureMessage e) hcode
    simp [mapErrorV1, hA, hst, v1StatusSwitch]
  · generalize failureMessage e = m
    simp only [v1Handle400]
    by_cases b1 : (strContains m "key" &&
        (strContains m "empty" || strContains m "invalid")) = true
    · simp only [if_pos b1]; rfl
    simp only [if_neg b1]
    by_cases b2 : (strContains m "metadata" || strContains m "Metadata") = true
    · simp only [if_pos b2]; rfl
    simp only [if_neg b2]
    by_cases b3 : (strContains m "multipart" || strContains m "part" ||
        strContains m "upload" || strContains m "NoSuchUpload" ||
        strContains m "InvalidPart") = true
    · simp only [if_pos b3]; rfl
    simp only [if_neg b3]
    by_cases b4 : (strContains m "digest" || strContains m "checksum") = true
    · simp only [if_pos b4]; rfl
    simp only [if_neg b4]
    by_cases b5 : (strContains m "too large" || strContains m "exceeds") = true
    · simp only [if_pos b5]; rfl
    simp only [if_neg b5]
    by_cases b6 : strContains m "too small" = true
    · simp only [if_pos b6]; rfl
    simp only [if_neg b6]
    rfl

theorem mapErrorV1_400_message_cascade_witness :
    mapErrorV1 ⟨none, some 400, some "checksum bad", "s"⟩ R2Operation.put
      (some "k") =
    R2BucketError.badDigest "k" R2Operation.put "checksum bad" none := by
  have h := mapErrorV1_400_message_cascade
    ⟨none, some 400, some "checksum bad", "s"⟩ R2Operation.put (some "k")
    (by simp) rfl
  exact h.1.trans (by decide)

/-- C8: with no recognized provider error code, no recognized HTTP status
and no matching priority-3 keyword, the first classifier returns
NetworkError whose reason is the failure's message and whose cause is
the original raw failure value unchanged. -/
theorem mapErrorV1_network_fallback (e : RawFailure) (op : R2Operation)
    (key : Option String)
    (hcode : ∀ c, e.code = some c → codeVariantTag c = none)
    (hst : ∀ s, e.status = some s → s ∉ v1Statuses)
    (h1 : strContains (failureMessage e) "NoSuchBucket" = false)
    (h2 : strContains (failureMessage e) "Please enable" = false)
    (h3 : strContains (failureMessage e) "not entitled" = false)
    (h4 : strContains (failureMessage e) "TooMuchConcurrency" = false)
    (h5 : strContains (failureMessage e) "concurrency" = false) :
    mapErrorV1 e op key =
      .network key op (failureMessage e) (some e) := by
  have hA := v1CodeSwitch_eq_none e.code op key (failureMessage e) hcode
  have hB := v1StatusSwitch_eq_none e.status op key (failureMessage e) hst
  simp [mapErrorV1, hA, hB, v1Tail, h1, h2, h3, h4, h5]

theorem mapErrorV1_network_fallback_witness :
    mapErrorV1 ⟨none, some 599, some "boom", "s"⟩ R2Operation.get (some "k") =
    R2BucketError.network (some "k") R2Operation.get "boom"
      (some ⟨none, some 599, some "boom", "s"⟩) :=
  mapErrorV1_network_fallback ⟨none, some 599, some "boom", "s"⟩
    R2Operation.get (some "k") (by simp)
    (by intro s hs; simp at hs; subst hs; decide)
    (by decide) (by decide) (by decide) (by decide) (by decide)

/-- C7: the conditional-result adapters for `get` and `head` return an
absent optional exactly when the provider resolves to the null sentinel,
a present optional wrapping the value exactly when the provider resolves
to a value, and a classified typed error (never an optional) when the
provider raises — the three outcomes are never conflated. -/
theorem adapters_tristate {α : Type} (outcome : ProviderResult α)
    (key : String) :
    (adaptGet outcome key = .ok none ↔ outcome = .resolvesNull) ∧
    (∀ v, adaptGet outcome key = .ok (some v) ↔ outcome = .resolves v) ∧
    (∀ e, outcome = .raises e →
      adaptGet outcome key =
        .error (mapErrorV1 e R2Operation.get (some key))) ∧
    (∀ e r, outcome = .raises e → adaptGet outcome key ≠ .ok r) ∧
    (adaptHead outcome key = .ok none ↔ outcome = .resolvesNull) ∧
    (∀ v, adaptHead outcome key = .ok (some v) ↔ outcome = .resolves v) ∧
    (∀ e, outcome = .raises e →
      adaptHead outcome key =
        .error (mapErrorV1 e R2Operation.head (some key))) ∧
    (∀ e r, outcome = .raises e → adaptHead outcome key ≠ .ok r) := by
  cases outcome <;> simp [adaptGet, adaptHead]

theorem adapters_tristate_witness :
    adaptGet
      (ProviderResult.raises ⟨none, some 401, some "denied", "s"⟩ :
        ProviderResult Nat) "k" =
    .error (mapErrorV1 ⟨none, some 401, some "denied", "s"⟩ R2Operation.get
      (some "k")) :=
  (adapters_tristate
    (ProviderResult.raises ⟨none, some 401, some "denied", "s"⟩ :
      ProviderResult Nat) "k").2.2.1 _ rfl

/-- C9 counterexample: for an environment that itself has a binding named
"~raw", `makeEnv` does not store the original raw environment under the
"~raw" key — the loop overwrites it with the binding. -/
theorem makeEnv_raw_counterexample :
    makeEnv [("~raw", Binding.prim "x")] "~raw" =
      some (.passthrough (.prim "x")) ∧
    makeEnv [("~raw", Binding.prim "x")] "~raw" ≠
      some (.rawEnv [("~raw", Binding.prim "x")]) := by decide

/-- C9 (amended): `makeEnv` wraps exactly the bindings detected as KV
namespaces, passes every other binding through unchanged, defines a
value exactly for the binding names plus "~raw", and stores the original
raw environment under "~raw" provided no binding itself has that name. -/
theorem makeEnv_wraps_kv (env : List (String × Binding)) :
    (∀ name b, env.lookup name = some b → isKVNamespace b = true →
      makeEnv env name = some (.kvWrapped b)) ∧
    (∀ name b, env.lookup name = some b → isKVNamespace b = false →
      makeEnv env name = some (.passthrough b)) ∧
    (∀ name, (makeEnv env name).isSome ↔
      ((env.lookup name).isSome ∨ name = "~raw")) ∧
    (env.lookup "~raw" = none → makeEnv env "~raw" = some (.rawEnv env)) := by
  refine ⟨?_, ?_, ?_, ?_⟩
  · intro name b hl hkv; simp [makeEnv, hl, hkv]
  · intro name b hl hkv; simp [makeEnv, hl, hkv]
  · intro name
    cases hl : env.lookup name with
    | some b => simp [makeEnv, hl]
    | none =>
      by_cases hn : name = "~raw"
      · subst hn; simp [makeEnv, hl]
      · simp [makeEnv, hl, hn]
  · intro hl; simp [makeEnv, hl]

theorem makeEnv_wraps_kv_witness :
    makeEnv [("STORE", Binding.obj ["get", "put", "list", "delete"]),
        ("SECRET", Binding.prim "s")] "STORE" =
      some (.kvWrapped (.obj ["get", "put", "list", "delete"])) ∧
    makeEnv [("STORE", Binding.obj ["get", "put", "list", "delete"]),
        ("SECRET", Binding.prim "s")] "SECRET" =
      some (.passthrough (.prim "s")) ∧
    makeEnv [("STORE", Binding.obj ["get", "put", "list", "delete"]),
        ("SECRET", Binding.prim "s")] "~raw" =
      some (.rawEnv [("STORE", Binding.obj ["get", "put", "list", "delete"]),
        ("SECRET", Binding.prim "s")]) :=
  ⟨(makeEnv_wraps_kv _).1 _ _ (by decide) (by decide),
   (makeEnv_wraps_kv _).2.1 _ _ (by decide) (by decide),
   (makeEnv_wraps_kv _).2.2.2 (by decide)⟩

lemma v1Handle400_no_rateLimit (op : R2Operation) (key : Option String)
    (m : String) (k : String) (o : R2Operation) (r : Option Int) :
    v1Handle400 op key m ≠ .rateLimit k o r := by
  intro h
  simp only [v1Handle400] at h
  by_cases b1 : (strContains m "key" &&
      (strContains m "empty" || strContains m "invalid")) = true
  · rw [if_pos b1] at h; exact R2BucketError.noConfusion h
  rw [if_neg b1] at h
  by_cases b2 : (strContains m "metadata" || strContains m "Metadata") = true
  · rw [if_pos b2] at h; exact R2BucketError.noConfusion h
  rw [if_neg b2] at h
  by_cases b3 : (strContains m "multipart" || strContains m "part" ||
      strContains m "upload" || strContains m "NoSuchUpload" ||
      strContains m "InvalidPart") = true
  · rw [if_pos b3] at h; exact R2BucketError.noConfusion h
  rw [if_neg b3] at h
  by_cases b4 : (strContains m "digest" || strContains m "checksum") = true
  · rw [if_pos b4] at h; exact R2BucketError.noConfusion h
  rw [if_neg b4] at h
  by_cases b5 : (strContains m "too large" || strContains m "exceeds") = true
  · rw [if_pos b5] at h; exact R2BucketError.noConfusion h
  rw [if_neg b5] at h
  by_cases b6 : strContains m "too small" = true
  · rw [if_pos b6] at h; exact R2BucketError.noConfusion h
  rw [if_neg b6] at h
  exact R2BucketError.noConfusion h

lemma v1CodeSwitch_no_rateLimit (code : Option Int) (op : R2Operation)
    (key : Option String) (m : String) (k : String) (o : R2Operation)
    (r : Option Int) :
    v1CodeSwitch code op key m ≠ some (.rateLimit k o r) := by
  intro h
  cases code with
  | none => exact Option.noConfusion h
  | some c =>
    simp only [v1CodeSwitch] at h
    by_cases h1 : c = 10001
    · rw [if_pos h1] at h; exact R2BucketError.noConfusion (Option.some.inj h)
    rw [if_neg h1] at h
    by_cases h2 : c = 100100
    · rw [if_pos h2] at h; exact R2BucketError.noConfusion (Option.some.inj h)
    rw [if_neg h2] at h
    by_cases h3 : c = 10011
    · rw [if_pos h3] at h; exact R2BucketError.noConfusion (Option.some.inj h)
    rw [if_neg h3] at h
    by_cases h4 : c = 10012
    · rw [if_pos h4] at h; exact R2BucketError.noConfusion (Option.some.inj h)
    rw [if_neg h4] at h
    by_cases h5 : c = 10020
    · rw [if_pos h5] at h; exact R2BucketError.noConfusion (Option.some.inj h)
    rw [if_neg h5] at h
    by_cases h6 : c = 10022
    · rw [if_pos h6] at h; exact R2BucketError.noConfusion (Option.some.inj h)
    rw [if_neg h6] at h
    by_cases h7 : c = 10024
    · rw [if_pos h7] at h; exact R2BucketError.noConfusion (Option.some.inj h)
    rw [if_neg h7] at h
    by_cases h8 : c = 10025
    · rw [if_pos h8] at h; exact R2BucketError.noConfusion (Option.some.inj h)
    rw [if_neg h8] at h
    by_cases h9 : c = 10029
    · rw [if_pos h9] at h; exact R2BucketError.noConfusion (Option.some.inj h)
    rw [if_neg h9] at h
    by_cases h10 : c = 10031
    · rw [if_pos h10] at h; exact R2BucketError.noConfusion (Option.some.inj h)
    rw [if_neg h10] at h
    by_cases h11 : c = 10037
    · rw [if_pos h11] at h; exact R2BucketError.noConfusion (Option.some.inj h)
    rw [if_neg h11] at h
    by_cases h12 : c = 10039
    · rw [if_pos h12] at h; exact R2BucketError.noConfusion (Option.some.inj h)
    rw [if_neg h12] at h
    by_cases h13 : c = 10048
    · rw [if_pos h13] at h; exact R2BucketError.noConfusion (Option.some.inj h)
    rw [if_neg h13] at h
    by_cases h14 : c = 10006
    · rw [if_pos h14] at h; exact R2BucketError.noConfusion (Option.some.inj h)
    rw [if_neg h14] at h
    by_cases h15 : c = 10042
    · rw [if_pos h15] at h; exact R2BucketError.noConfusion (Option.some.inj h)
    rw [if_neg h15] at h
    exact Option.noConfusion h

lemma v1Tail_no_rateLimit (e : RawFailure) (op : R2Operation)
    (key : Option String) (m : String) (k : String) (o : R2Operation)
    (r : Option Int) :
    v1Tail e op key m ≠ .rateLimit k o r := by
  intro h
  simp only [v1Tail] at h
  by_cases b1 : strContains m "NoSuchBucket" = true
  · rw [if_pos b1] at h; exact R2BucketError.noConfusion h
  rw [if_neg b1] at h
  by_cases b2 : (strContains m "Please enable" ||
      strContains m "not entitled") = true
  · rw [if_pos b2] at h; exact R2BucketError.noConfusion h
  rw [if_neg b2] at h
  by_cases b3 : (strContains m "TooMuchConcurrency" ||
      strContains m "concurrency") = true
  · rw [if_pos b3] at h; exact R2BucketError.noConfusion h
  rw [if_neg b3] at h
  exact R2BucketError.noConfusion h

lemma v1StatusSwitch_rateLimit_shape (status : Option Int) (op : R2Operation)
    (key : Option String) (m : String) (k : String) (o : R2Operation)
    (r : Option Int)
    (h : v1StatusSwitch status op key m = some (.rateLimit k o r)) :
    r = none ∧ k = key.getD "" := by
  cases status with
  | none => exact Option.noConfusion h
  | some s =>
    simp only [v1StatusSwitch] at h
    by_cases h1 : s = 429
    · rw [if_pos h1] at h
      injection Option.some.inj h with hk ho hr
      exact ⟨hr.symm, hk.symm⟩
    rw [if_neg h1] at h
    by_cases h2 : s = 412
    · rw [if_pos h2] at h; exact R2BucketError.noConfusion (Option.some.inj h)
    rw [if_neg h2] at h
    by_cases h3 : s = 416
    · rw [if_pos h3] at h; exact R2BucketError.noConfusion (Option.some.inj h)
    rw [if_neg h3] at h
    by_cases h4 : s = 401
    · rw [if_pos h4] at h; exact R2BucketError.noConfusion (Option.some.inj h)
    rw [if_neg h4] at h
    by_cases h5 : s = 403
    · rw [if_pos h5] at h; exact R2BucketError.noConfusion (Option.some.inj h)
    rw [if_neg h5] at h
    by_cases h6 : s = 500
    · rw [if_pos h6] at h; exact R2BucketError.noConfusion (Option.some.inj h)
    rw [if_neg h6] at h
    by_cases h7 : s = 400
    · rw [if_pos h7] at h
      exact absurd (Option.some.inj h) (v1Handle400_no_rateLimit op key m k o r)
    rw [if_neg h7] at h
    exact Option.noConfusion h

lemma v2Handle400_no_rateLimit (e : RawFailure) (op : R2Operation)
    (key : Option String) (m : String) (k : String) (o : R2Operation)
    (r : Option Int) :
    v2Handle400 e op key m ≠ .rateLimit k o r := by
  intro h
  simp only [v2Handle400] at h
  by_cases b1 : (strContains m "key" &&
      (strContains m "empty" || strContains m "invalid")) = true
  · rw [if_pos b1] at h; exact R2BucketError.noConfusion h
  rw [if_neg b1] at h
  by_cases b2 : (strContains m "multipart" || strContains m "part" ||
      strContains m "upload" || strContains m "NoSuchUpload" ||
      strContains m "InvalidPart") = true
  · rw [if_pos b2] at h; exact R2BucketError.noConfusion h
  rw [if_neg b2] at h
  exact R2BucketError.noConfusion h

lemma v2Default_no_rateLimit (e : RawFailure) (op : R2Operation)
    (key : Option String) (m : String) (k : String) (o : R2Operation)
    (r : Option Int) :
    v2Default e op key m ≠ .rateLimit k o r := by
  intro h
  simp only [v2Default] at h
  by_cases b1 : (strContains m "TooMuchConcurrency" ||
      strContains m "concurrency") = true
  · rw [if_pos b1] at h; exact R2BucketError.noConfusion h
  rw [if_neg b1] at h
  exact R2BucketError.noConfusion h

lemma v2StatusSwitch_rateLimit_shape (e : RawFailure) (op : R2Operation)
    (key : Option String) (m : String) (k : String) (o : R2Operation)
    (r : Option Int)
    (h : v2StatusSwitch e op key m = some (.rateLimit k o r)) :
    r = none ∧ k = key.getD "" := by
  cases hst : e.status with
  | none =>
    simp only [v2StatusSwitch, hst] at h
    exact Option.noConfusion h
  | some s =>
    simp only [v2StatusSwitch, hst] at h
    by_cases h1 : s = 429
    · rw [if_pos h1] at h
      injection Option.some.inj h with hk ho hr
      exact ⟨hr.symm, hk.symm⟩
    rw [if_neg h1] at h
    by_cases h2 : s = 412
    · rw [if_pos h2] at h; exact R2BucketError.noConfusion (Option.some.inj h)
    rw [if_neg h2] at h
    by_cases h3 : s = 416
    · rw [if_pos h3] at h; exact R2BucketError.noConfusion (Option.some.inj h)
    rw [if_neg h3] at h
    by_cases h4 : s = 414
    · rw [if_pos h4] at h; exact R2BucketError.noConfusion (Option.some.inj h)
    rw [if_neg h4] at h
    by_cases h5 : s = 413
    · rw [if_pos h5] at h
      have h' := Option.some.inj h
      by_cases hm : (strContains m "metadata" ||
          strContains m "Metadata") = true
      · rw [if_pos hm] at h'; exact R2BucketError.noConfusion h'
      · rw [if_neg hm] at h'; exact R2BucketError.noConfusion h'
    rw [if_neg h5] at h
    by_cases h6 : s = 401
    · rw [if_pos h6] at h; exact R2BucketError.noConfusion (Option.some.inj h)
    rw [if_neg h6] at h
    by_cases h7 : s = 403
    · rw [if_pos h7] at h; exact R2BucketError.noConfusion (Option.some.inj h)
    rw [if_neg h7] at h
    by_cases h8 : s = 400
    · rw [if_pos h8] at h
      exact absurd (Option.some.inj h)
        (v2Handle400_no_rateLimit e op key m k o r)
    rw [if_neg h8] at h
    exact Option.noConfusion h

/-- C10: whenever either classifier produces a RateLimited error, its
retryAfter field is absent and its key field equals the supplied key, or
the empty string when no key was supplied. -/
theorem mapError_rateLimit_shape (e : RawFailure) (op : R2Operation)
    (key : Option String) :
    (∀ k o r, mapErrorV1 e op key = .rateLimit k o r →
      r = none ∧ k = key.getD "") ∧
    (∀ k o r, mapErrorV2 e op key = .rateLimit k o r →
      r = none ∧ k = key.getD "") := by
  constructor
  · intro k o r h
    rcases hcs : v1CodeSwitch e.code op key (failureMessage e) with _ | x
    · rcases hss : v1StatusSwitch e.status op key (failureMessage e) with _ | y
      · have ht : v1Tail e op key (failureMessage e) = .rateLimit k o r := by
          simpa [mapErrorV1, hcs, hss] using h
        exact absurd ht (v1Tail_no_rateLimit _ _ _ _ _ _ _)
      · have hy : y = .rateLimit k o r := by
          simpa [mapErrorV1, hcs, hss] using h
        rw [hy] at hss
        exact v1StatusSwitch_rateLimit_shape e.status op key _ k o r hss
    · have hx : x = .rateLimit k o r := by
        simpa [mapErrorV1, hcs] using h
      rw [hx] at hcs
      exact absurd hcs (v1CodeSwitch_no_rateLimit _ _ _ _ _ _ _)
  · intro k o r h
    by_cases hb1 : (e.code = some 10006 ∨
        strContains (failureMessage e) "NoSuchBucket" = true)
    · simp only [mapErrorV2, if_pos hb1] at h
      exact R2BucketError.noConfusion h
    by_cases hb2 : (e.code = some 10042 ∨
        strContains (failureMessage e) "Please enable" = true)
    · simp only [mapErrorV2, if_neg hb1, if_pos hb2] at h
      exact R2BucketError.noConfusion h
    rcases hss : v2StatusSwitch e op key (failureMessage e) with _ | y
    · have hd : v2Default e op key (failureMessage e) = .rateLimit k o r := by
        simpa [mapErrorV2, hb1, hb2, hss] using h
      exact absurd hd (v2Default_no_rateLimit _ _ _ _ _ _ _)
    · have hy : y = .rateLimit k o r := by
        simpa [mapErrorV2, hb1, hb2, hss] using h
      rw [hy] at hss
      exact v2StatusSwitch_rateLimit_shape e op key _ k o r hss

theorem mapError_rateLimit_shape_witness :
    (none : Option Int) = none ∧
    "counter" = (some "counter" : Option String).getD "" :=
  (mapError_rateLimit_shape ⟨none, some 429, some "slow down", "s"⟩
    R2Operation.put (some "counter")).1 "counter" R2Operation.put none
    (by decide)

lemma v2Handle400_tags (e : RawFailure) (op : R2Operation)
    (key : Option String) (m : String) :
    (v2Handle400 e op key m).tag = "R2InvalidKeyError" ∨
    (v2Handle400 e op key m).tag = "R2MultipartError" ∨
    (v2Handle400 e op key m).tag = "R2NetworkError" := by
  simp only [v2Handle400]
  by_cases b1 : (strContains m "key" &&
      (strContains m "empty" || strContains m "invalid")) = true
  · rw [if_pos b1]; left; rfl
  rw [if_neg b1]
  by_cases b2 : (strContains m "multipart" || strContains m "part" ||
      strContains m "upload" || strContains m "NoSuchUpload" ||
      strContains m "InvalidPart") = true
  · rw [if_pos b2]; right; left; rfl
  rw [if_neg b2]; right; right; rfl

lemma v2Default_tags (e : RawFailure) (op : R2Operation)
    (key : Option String) (m : String) :
    (v2Default e op key m).tag = "R2ConcurrencyError" ∨
    (v2Default e op key m).tag = "R2NetworkError" := by
  simp only [v2Default]
  by_cases b1 : (strContains m "TooMuchConcurrency" ||
      strContains m "concurrency") = true
  · rw [if_pos b1]; left; rfl
  rw [if_neg b1]; right; rfl

lemma v2StatusSwitch_tags (e : RawFailure) (op : R2Operation)
    (key : Option String) (m : String) (r : R2BucketError)
    (h : v2StatusSwitch e op key m = some r) :
    r.tag ∈ ["R2RateLimitError", "R2PreconditionFailedError",
      "R2InvalidKeyError", "R2MetadataError", "R2ObjectTooLargeError",
      "R2AuthorizationError", "R2MultipartError", "R2NetworkError"] := by
  cases hst : e.status with
  | none =>
    simp only [v2StatusSwitch, hst] at h
    exact Option.noConfusion h
  | some s =>
    simp only [v2StatusSwitch, hst] at h
    by_cases h1 : s = 429
    · rw [if_pos h1] at h; cases Option.some.inj h; simp only [R2BucketError.tag]; decide
    rw [if_neg h1] at h
    by_cases h2 : s = 412
    · rw [if_pos h2] at h; cases Option.some.inj h; simp only [R2BucketError.tag]; decide
    rw [if_neg h2] at h
    by_cases h3 : s = 416
    · rw [if_pos h3] at h; cases Option.some.inj h; simp only [R2BucketError.tag]; decide
    rw [if_neg h3] at h
    by_cases h4 : s = 414
    · rw [if_pos h4] at h; cases Option.some.inj h; simp only [R2BucketError.tag]; decide
    rw [if_neg h4] at h
    by_cases h5 : s = 413
    · rw [if_pos h5] at h
      cases Option.some.inj h
      by_cases hm : (strContains m "metadata" ||
          strContains m "Metadata") = true
      · rw [if_pos hm]; simp only [R2BucketError.tag]; decide
      · rw [if_neg hm]; simp only [R2BucketError.tag]; decide
    rw [if_neg h5] at h
    by_cases h6 : s = 401
    · rw [if_pos h6] at h; cases Option.some.inj h; simp only [R2BucketError.tag]; decide
    rw [if_neg h6] at h
    by_cases h7 : s = 403
    · rw [if_pos h7] at h; cases Option.some.inj h; simp only [R2BucketError.tag]; decide
    rw [if_neg h7] at h
    by_cases h8 : s = 400
    · rw [if_pos h8] at h
      cases Option.some.inj h
      rcases v2Handle400_tags e op key m with h' | h' | h' <;> rw [h'] <;>
        decide
    rw [if_neg h8] at h
    exact Option.noConfusion h

lemma mapErrorV2_tag_mem (e : RawFailure) (op : R2Operation)
    (key : Option String) :
    (mapErrorV2 e op key).tag ∈ v2UnionTags := by
  by_cases hb1 : (e.code = some 10006 ∨
      strContains (failureMessage e) "NoSuchBucket" = true)
  · simp only [mapErrorV2, if_pos hb1, R2BucketError.tag]; decide
  by_cases hb2 : (e.code = some 10042 ∨
      strContains (failureMessage e) "Please enable" = true)
  · simp only [mapErrorV2, if_neg hb1, if_pos hb2, R2BucketError.tag]; decide
  simp only [mapErrorV2, if_neg hb1, if_neg hb2]
  rcases hss : v2StatusSwitch e op key (failureMessage e) with _ | y
  · rw [Option.getD_none]
    rcases v2Default_tags e op key (failureMessage e) with h | h <;> rw [h] <;>
      decide
  · rw [Option.getD_some]
    have hy := v2StatusSwitch_tags e op key (failureMessage e) y hss
    exact (by decide : ∀ t ∈ (["R2RateLimitError",
      "R2PreconditionFailedError", "R2InvalidKeyError", "R2MetadataError",
      "R2ObjectTooLargeError", "R2AuthorizationError", "R2MultipartError",
      "R2NetworkError"] : List String), t ∈ v2UnionTags) _ hy

/-- C6: the two classification cascades in the repository diverge: a
status-413 failure whose message does not mention metadata is
NetworkError under the first version but ObjectTooLargeError under the
second, and the second version never produces the ObjectTooSmall,
BadDigest, InvalidMaxKeys or InvalidRange variants of its own union. -/
theorem mapError_versions_diverge :
    (mapErrorV1 ⟨none, some 413, some "value too big", "s"⟩ R2Operation.put
      (some "k")).tag = "R2NetworkError" ∧
    (mapErrorV2 ⟨none, some 413, some "value too big", "s"⟩ R2Operation.put
      (some "k")).tag = "R2ObjectTooLargeError" ∧
    decide (mapErrorV1 ⟨none, some 413, some "value too big", "s"⟩
        R2Operation.put (some "k") =
      mapErrorV2 ⟨none, some 413, some "value too big", "s"⟩ R2Operation.put
        (some "k")) = false ∧
    ∀ (e : RawFailure) (op : R2Operation) (key : Option String),
      (["R2ObjectTooSmallError", "R2BadDigestError", "R2InvalidMaxKeysError",
        "R2InvalidRangeError"] : List String).contains
          (mapErrorV2 e op key).tag = false := by
  refine ⟨by decide, by decide, by decide, ?_⟩
  intro e op key
  have h := mapErrorV2_tag_mem e op key
  exact (by decide : ∀ t ∈ v2UnionTags,
    (["R2ObjectTooSmallError", "R2BadDigestError", "R2InvalidMaxKeysError",
      "R2InvalidRangeError"] : List String).contains t = false) _ h
